import Mathlib

/-!
Verification of the conversation-routing / specialty-triage state machine of
`src/server.js` (two variants of the same Express service separated in the
source file).  The JavaScript is embedded shallowly: string helpers mirror the
JS string methods used (`includes`, `toLowerCase`, `trim`), Mongo documents
become Lean structures, the generative-text oracle and the doctor directory
become an explicit environment record, and each request handler becomes a pure
function from conversation, request body and environment to an `Except` value
recording the HTTP outcome, the appended messages, the triage-log writes and
the oracle calls made.
-/

namespace Chat

/-! ## String primitives (JS semantics) -/

/-- Helper for `isInfixCh`: Boolean list-prefix test on characters. -/
def isPrefixCh : List Char → List Char → Bool
  | [], _ => true
  | _ :: _, [] => false
  | a :: as, b :: bs => a == b && isPrefixCh as bs

/-- Helper for `includesJS`: `pat` occurs as a contiguous infix of the list. -/
def isInfixCh (pat : List Char) : List Char → Bool
  | [] => pat.isEmpty
  | c :: rest => isPrefixCh pat (c :: rest) || isInfixCh pat rest

/-- JS `s.includes(pat)`: substring containment. -/
def includesJS (s pat : String) : Bool := isInfixCh pat.data s.data

/-- JS `s.toLowerCase()`, modelled with the ASCII case map (every claim below
phrases its hypotheses and its concrete inputs on the already lower-cased
text, where this map and the JS one agree). -/
def toLowerCaseJS (s : String) : String := ⟨s.data.map Char.toLower⟩

/-- Whitespace stripped by JS `trim`. -/
def isWhitespaceJS (c : Char) : Bool := c == ' ' || c == '\t' || c == '\n' || c == '\r'

/-- JS `s.trim()`. -/
def trimJS (s : String) : String :=
  ⟨((s.data.dropWhile isWhitespaceJS).reverse.dropWhile isWhitespaceJS).reverse⟩

/-! ## Data model (Mongoose schemas of `src/server.js`) -/

/-- `MessageSchema`: `role` is `"user"` or `"assistant"`, `content` the text.
The timestamp default is not modelled (no claim mentions it). -/
structure Message where
  role : String
  content : String
deriving Repr, DecidableEq

/-- `DoctorSchema`: name, specialty, optional hospital and experience. -/
structure Doctor where
  name : String
  specialty : String
  hospital : Option String := none
  experience : Option Int := none
deriving Repr, DecidableEq

/-- `ConversationSchema` (variant 1): `type` is `"ai"` or `"doctor"`
(default `"ai"`), `doctor` the assigned doctor subdocument (absent by
default), `pendingDoctor` defaults to `null`, `messages` to `[]`. -/
structure Conversation where
  userId : String
  type : String := "ai"
  doctor : Option Doctor := none
  pendingDoctor : Option Doctor := none
  messages : List Message := []
deriving Repr, DecidableEq

/-- `TempConversationSchema` (variant 2). -/
structure TempConversation where
  userId : String
  messages : List Message := []
  systemInstructions : String :=
    "You are a nurse. Your name is Mediverse. You have basic knowledge of medicine, healthcare, and health, always reply user by only vietnamese."
deriving Repr, DecidableEq

/-- `TriageSchema`: one audit record per specialty classification. -/
structure Triage where
  userId : String
  symptoms : String
  suggestedSpecialty : String
deriving Repr, DecidableEq

/-- The spec-level conversation mode, derived from the source fields in the
priority order of the handler's branches: a non-null `pendingDoctor` means
`doctorHandoffPending`, otherwise `type == "doctor"` means `doctorActive`,
otherwise `generic`. -/
inductive Mode where
  | generic
  | doctorHandoffPending
  | doctorActive
deriving Repr, DecidableEq

/-- Derived mode of a variant-1 conversation document. -/
def Conversation.mode (c : Conversation) : Mode :=
  if c.pendingDoctor.isSome then .doctorHandoffPending
  else if c.type = "doctor" then .doctorActive
  else .generic

/-- `POST /conversation`: `new Conversation({ userId, messages: [] })` with
the schema defaults (`type: 'ai'`, `pendingDoctor: null`, no `doctor`). -/
def newConversation (userId : String) : Conversation :=
  { userId := userId, type := "ai", doctor := none, pendingDoctor := none, messages := [] }

/-! ## External environment -/

/-- Which `model.generateContent` call a handler run performed. -/
inductive OracleCall where
  | intent
  | doctorPersona
  | nurse
deriving Repr, DecidableEq

/-- Outcome of one oracle request: `Except.error` is a transport failure
(the JS promise rejects), `Except.ok none` is a resolved result with no
response text (`result.response.text()` unavailable / nullish), and
`Except.ok (some s)` a resolved result with text `s`. -/
abbrev OracleResp := Except Unit (Option String)

/-- Environment of one handler run: the response the oracle would give to the
intent-classification prompt, the response it would give to the
persona/nurse chat prompt, and the doctor directory
(`Doctor.findOne({ specialty })`). -/
structure Env where
  intentResp : OracleResp
  chatResp : OracleResp
  findDoctor : String → Option Doctor

/-- Error outcomes of a handler run: a 400 validation rejection, or a thrown
error surfaced as a 500 (oracle failure or a crash inside the handler). -/
inductive ChatErr where
  | validation
  | upstream
deriving Repr, DecidableEq

/-- Result of a successful variant-1 chat run: the saved conversation, the
`answer` field of the JSON response, the oracle calls made, and the triage
records written (always empty in variant 1, which has no `Triage.save`). -/
structure Outcome where
  convo : Conversation
  answer : String
  calls : List OracleCall
  triageWrites : List Triage
deriving Repr, DecidableEq

/-- Result of a successful variant-2 temp-chat run. -/
structure TempOutcome where
  convo : TempConversation
  answer : String
  calls : List OracleCall
  triageWrites : List Triage
  doctorOut : Option Doctor
deriving Repr, DecidableEq

/-! ## Intent classifier (`detectDoctorIntent`) -/

/-- Variant 1 `detectDoctorIntent`:
`result.response.text().trim().toLowerCase()` then `.includes("yes")`.
There is no optional chaining, so a resolved result without response text
throws (`Except.error`), and a rejected oracle call propagates. -/
def detectDoctorIntent (resp : OracleResp) : Except Unit Bool :=
  match resp with
  | .error e => .error e
  | .ok none => .error ()
  | .ok (some s) => .ok (includesJS (toLowerCaseJS (trimJS s)) "yes")

/-- Variant 2 `detectDoctorIntent`: `if (!text) return false;` then
`result?.response?.text?.().trim().toLowerCase() || ""` then
`.includes("yes")` — the optional chain short-circuits a missing response
to `undefined`, which `|| ""` turns into the empty string. -/
def detectDoctorIntentV2 (text : String) (resp : OracleResp) : Except Unit Bool :=
  if text = "" then .ok false
  else
    match resp with
    | .error e => .error e
    | .ok none => .ok false
    | .ok (some s) => .ok (includesJS (toLowerCaseJS (trimJS s)) "yes")

/-! ## Specialty matchers (rule chains) -/

/-- Rule chain inside the variant-1 chat handler (lines 157–160): `tim` /
`huyết áp` first, then `da` / `mụn`, then `tai` / `mũi` / `họng`,
default `Nội tổng quát`. Applied to the already lower-cased text. -/
def matchSpecialtyChat (lower : String) : String :=
  if includesJS lower "tim" || includesJS lower "huyết áp" then "Tim mạch"
  else if includesJS lower "da" || includesJS lower "mụn" then "Da liễu"
  else if includesJS lower "tai" || includesJS lower "mũi" || includesJS lower "họng" then
    "Tai mũi họng"
  else "Nội tổng quát"

/-- Rule chain of `triageRoute` (both variants) and of the variant-2
temp-chat handler: `da` / `mụn` first, then `tim` / `huyết áp`, then
`tai` / `mũi` / `họng`, default `Nội tổng quát`. Note the first two groups
are checked in the opposite order to `matchSpecialtyChat`. -/
def matchSpecialtyTriage (lower : String) : String :=
  if includesJS lower "da" || includesJS lower "mụn" then "Da liễu"
  else if includesJS lower "tim" || includesJS lower "huyết áp" then "Tim mạch"
  else if includesJS lower "tai" || includesJS lower "mũi" || includesJS lower "họng" then
    "Tai mũi họng"
  else "Nội tổng quát"

/-! ## Variant-1 chat handler (`POST /chat/:conversationId`) -/

/-- Confirmation tokens accepted by the pending-confirmation branch. -/
def affirmTokens : List String := ["có", "ok", "đúng", "yes"]

/-- Refusal tokens of the pending-confirmation branch. -/
def negTokens : List String := ["không", "no", "từ chối"]

/-- Push one message onto the transcript (`convo.messages.push({...})`). -/
def pushMsg (c : Conversation) (role content : String) : Conversation :=
  { c with messages := c.messages ++ [⟨role, content⟩] }

/-- Handoff announcement of the accept branch (line 118). -/
def handoffNotify (d : Doctor) : String :=
  "✅ Bạn đã được chuyển sang mục chat với bác sĩ " ++ d.specialty ++ " (" ++ d.name ++ ")."

/-- Refusal announcement of the deny branch (line 124). -/
def denyNotify : String := "❌ Bạn đã từ chối chuyển sang bác sĩ. Tiếp tục chat với AI."

/-- Confirmation question of the doctor-found branch (line 165). -/
def confirmMsg (d : Doctor) : String :=
  "Bạn có muốn chuyển tiếp sang bác sĩ " ++ d.specialty ++ " (" ++ d.name ++
    ") để được tư vấn không? (Có / Không)"

/-- Placeholder answer when the oracle resolves without text (lines 143, 184). -/
def noReply : String := "(Không có phản hồi)"

/-- Doctor-persona branch (lines 132–148): one oracle call with the persona
prompt, `result?.response?.text() ?? "(Không có phản hồi)"`, append the
assistant reply, save, return. -/
def doctorBranch (c1 : Conversation) (env : Env) : Except ChatErr Outcome :=
  match env.chatResp with
  | .error _ => .error .upstream
  | .ok r =>
    let answer := r.getD noReply
    .ok ⟨pushMsg c1 "assistant" answer, answer, [.doctorPersona], []⟩

/-- Generic nurse reply (lines 173–189), reached from the generic branch
after the intent call: one oracle call with the nurse prompt, the same
nullish-coalescing fallback, append, save, return. -/
def nurseReply (c1 : Conversation) (env : Env) : Except ChatErr Outcome :=
  match env.chatResp with
  | .error _ => .error .upstream
  | .ok r =>
    let answer := r.getD noReply
    .ok ⟨pushMsg c1 "assistant" answer, answer, [.intent, .nurse], []⟩

/-- Generic branch (lines 153–189): call `detectDoctorIntent`; on `true`
run the rule-based matcher and look up a doctor — if found, set
`pendingDoctor`, append the confirmation question and return without the
nurse call; otherwise fall through to the nurse reply. Variant 1 writes no
triage record here. -/
def genericBranch (c1 : Conversation) (lower : String) (env : Env) : Except ChatErr Outcome :=
  match detectDoctorIntent env.intentResp with
  | .error _ => .error .upstream
  | .ok wantsDoctor =>
    if wantsDoctor then
      match env.findDoctor (matchSpecialtyChat lower) with
      | some doctor =>
        let c2 := { c1 with pendingDoctor := some doctor }
        .ok ⟨pushMsg c2 "assistant" (confirmMsg doctor), confirmMsg doctor, [.intent], []⟩
      | none => nurseReply c1 env
    else nurseReply c1 env

/-- Branches 2 and 3 of the handler, reached when the pending-confirmation
branch did not return: doctor persona iff `type === "doctor" && doctor`. -/
def ordinaryTurn (c1 : Conversation) (lower : String) (env : Env) : Except ChatErr Outcome :=
  if c1.type = "doctor" ∧ c1.doctor.isSome then doctorBranch c1 env
  else genericBranch c1 lower env

/-- Variant-1 `POST /chat/:conversationId` handler on a found conversation:
validate the body, push the user message, lower-case the text, then run the
pending-confirmation branch (`if (convo.pendingDoctor)`) with its accept /
deny / fallthrough cases, else the doctor-persona or generic branch. -/
def postMessage (convo : Conversation) (userId question : String) (env : Env) :
    Except ChatErr Outcome :=
  if userId = "" ∨ question = "" then .error .validation
  else
    let c1 := pushMsg convo "user" question
    let lower := toLowerCaseJS question
    match c1.pendingDoctor with
    | some pd =>
      if affirmTokens.any (fun w => includesJS lower w) then
        let c2 := { c1 with type := "doctor", doctor := some pd, pendingDoctor := none }
        .ok ⟨pushMsg c2 "assistant" (handoffNotify pd), handoffNotify pd, [], []⟩
      else if negTokens.any (fun w => includesJS lower w) then
        let c2 := { c1 with pendingDoctor := none }
        .ok ⟨pushMsg c2 "assistant" denyNotify, denyNotify, [], []⟩
      else ordinaryTurn c1 lower env
    | none => ordinaryTurn c1 lower env

/-! ## Variant-2 temp-chat handler (`POST /temp-chat/:tempConversationId`) -/

/-- Placeholder doctor substituted when the directory has no match
(variant 2 temp-chat and both `triageRoute`s). -/
def placeholderDoctor (specialty : String) : Doctor :=
  { name := "Chưa có bác sĩ trong hệ thống"
    specialty := specialty
    hospital := some "Vui lòng đến bệnh viện gần nhất"
    experience := none }

/-- Push one message onto a temp conversation. -/
def pushTempMsg (c : TempConversation) (role content : String) : TempConversation :=
  { c with messages := c.messages ++ [⟨role, content⟩] }

/-- Variant-2 `POST /temp-chat/:tempConversationId` handler on a found temp
conversation: validate, push the user message, call `detectDoctorIntent`;
on `true` run the triage-ordered matcher, save a `Triage` record and look
up a doctor (placeholder when absent); in every case then make the nurse
chat-oracle call over the full history, append the assistant reply and
return it together with the triage and doctor fields. -/
def postTempMessage (tc : TempConversation) (userId question : String) (env : Env) :
    Except ChatErr TempOutcome :=
  if userId = "" ∨ question = "" then .error .validation
  else
    let c1 := pushTempMsg tc "user" question
    match detectDoctorIntentV2 question env.intentResp with
    | .error _ => .error .upstream
    | .ok wantsDoctor =>
      let triageWrites :=
        if wantsDoctor then
          [⟨userId, question, matchSpecialtyTriage (toLowerCaseJS question)⟩]
        else ([] : List Triage)
      let doctorOut :=
        if wantsDoctor then
          some ((env.findDoctor (matchSpecialtyTriage (toLowerCaseJS question))).getD
            (placeholderDoctor (matchSpecialtyTriage (toLowerCaseJS question))))
        else none
      match env.chatResp with
      | .error _ => .error .upstream
      | .ok r =>
        let answer := r.getD noReply
        .ok ⟨pushTempMsg c1 "assistant" answer, answer, [.intent, .nurse],
          triageWrites, doctorOut⟩

/-! ## The conversation data invariant -/

/-- Data invariant of a variant-1 conversation document: the assigned doctor
is present exactly when the document is in doctor mode, and a pending doctor
can only be present outside doctor mode. -/
def convoInvariant (c : Conversation) : Prop :=
  (c.doctor.isSome = true ↔ c.type = "doctor") ∧
    (c.pendingDoctor.isSome = true → c.type ≠ "doctor")

/-! ## Concrete fixtures used by witnesses and counterexamples -/

/-- A dermatology doctor record. -/
def docDerm : Doctor := ⟨"Nguyễn Văn An", "Da liễu", none, none⟩

/-- A cardiology doctor record. -/
def docCard : Doctor := ⟨"Trần Thị Bình", "Tim mạch", none, none⟩

/-- An environment whose oracle always fails and whose directory is empty:
runs that succeed against it made no oracle call and no lookup that found
anything. -/
def deadEnv : Env := ⟨.error (), .error (), fun _ => none⟩

/-- An environment whose intent oracle answers `"yes"`, whose chat oracle
answers a greeting, and whose directory holds exactly one cardiologist. -/
def envTim : Env :=
  ⟨.ok (some "yes"), .ok (some "Chào bạn"), fun s => if s = "Tim mạch" then some docCard else none⟩

/-- A conversation waiting for confirmation of a handoff to `docDerm`. -/
def pendConvo : Conversation := { userId := "u1", pendingDoctor := some docDerm }

/-! ## Success-shape lemmas shared by the claim proofs -/

/-- A successful doctor-persona turn only appends the assistant reply: every
state field of the conversation is untouched. -/
theorem doctorBranch_ok {c1 : Conversation} {env : Env} {out : Outcome}
    (h : doctorBranch c1 env = Except.ok out) :
    out.convo = pushMsg c1 "assistant" out.answer ∧ out.calls = [.doctorPersona] ∧
      out.triageWrites = [] := by
  unfold doctorBranch at h
  split at h
  · simp at h
  · cases h
    exact ⟨rfl, rfl, rfl⟩

/-- A successful nurse turn only appends the assistant reply. -/
theorem nurseReply_ok {c1 : Conversation} {env : Env} {out : Outcome}
    (h : nurseReply c1 env = Except.ok out) :
    out.convo = pushMsg c1 "assistant" out.answer ∧ out.calls = [.intent, .nurse] ∧
      out.triageWrites = [] := by
  unfold nurseReply at h
  split at h
  · simp at h
  · cases h
    exact ⟨rfl, rfl, rfl⟩

/-- A successful generic-branch turn preserves `userId`, `type` and `doctor`,
appends exactly the assistant reply, writes no triage record, and either
leaves `pendingDoctor` alone or replaces it with the doctor the directory
returned for the specialty matched from the lower-cased text. -/
theorem genericBranch_ok {c1 : Conversation} {lower : String} {env : Env} {out : Outcome}
    (h : genericBranch c1 lower env = Except.ok out) :
    out.convo.userId = c1.userId ∧ out.convo.type = c1.type ∧
      out.convo.doctor = c1.doctor ∧
      out.convo.messages = c1.messages ++ [⟨"assistant", out.answer⟩] ∧
      out.triageWrites = [] ∧
      (out.convo.pendingDoctor = c1.pendingDoctor ∨
        ∃ d, env.findDoctor (matchSpecialtyChat lower) = some d ∧
          out.convo.pendingDoctor = some d) := by
  unfold genericBranch at h
  split at h
  · simp at h
  · split at h
    · split at h
      · cases h
        refine ⟨rfl, rfl, rfl, rfl, rfl, Or.inr ⟨_, ?_, rfl⟩⟩
        assumption
      · obtain ⟨hc, _, ht⟩ := nurseReply_ok h
        exact ⟨by simp [hc, pushMsg], by simp [hc, pushMsg], by simp [hc, pushMsg],
          by simp [hc, pushMsg], ht, Or.inl (by simp [hc, pushMsg])⟩
    · obtain ⟨hc, _, ht⟩ := nurseReply_ok h
      exact ⟨by simp [hc, pushMsg], by simp [hc, pushMsg], by simp [hc, pushMsg],
        by simp [hc, pushMsg], ht, Or.inl (by simp [hc, pushMsg])⟩

/-- A successful turn through branches 2 / 3 preserves `userId`, `type` and
`doctor`, appends exactly the assistant reply, and can only change
`pendingDoctor` by installing a directory hit — and that only when the
conversation was not an active doctor conversation. -/
theorem ordinaryTurn_ok {c1 : Conversation} {lower : String} {env : Env} {out : Outcome}
    (h : ordinaryTurn c1 lower env = Except.ok out) :
    out.convo.userId = c1.userId ∧ out.convo.type = c1.type ∧
      out.convo.doctor = c1.doctor ∧
      out.convo.messages = c1.messages ++ [⟨"assistant", out.answer⟩] ∧
      out.triageWrites = [] ∧
      (out.convo.pendingDoctor = c1.pendingDoctor ∨
        (¬(c1.type = "doctor" ∧ c1.doctor.isSome = true) ∧
          ∃ d, env.findDoctor (matchSpecialtyChat lower) = some d ∧
            out.convo.pendingDoctor = some d)) := by
  unfold ordinaryTurn at h
  split at h
  · obtain ⟨hc, _, ht⟩ := doctorBranch_ok h
    exact ⟨by simp [hc, pushMsg], by simp [hc, pushMsg], by simp [hc, pushMsg],
      by simp [hc, pushMsg], ht, Or.inl (by simp [hc, pushMsg])⟩
  · obtain ⟨h1, h2, h3, h4, h5, h6⟩ := genericBranch_ok h
    refine ⟨h1, h2, h3, h4, h5, ?_⟩
    rcases h6 with h6 | ⟨d, hd, hp⟩
    · exact Or.inl h6
    · exact Or.inr ⟨by assumption, d, hd, hp⟩

/-! # Claims

Each claim of the specification is settled by one theorem below (plus, where
required, a closed witness or counterexample instance).
-/

/-- C1: in `doctorHandoffPending` mode (a non-null `pendingDoctor`), a message
whose lower-cased text contains an affirmative token from
`{"có","ok","đúng","yes"}` moves the conversation to `doctorActive` mode,
assigns the previously pending doctor, clears `pendingDoctor`, appends
exactly one assistant message announcing the handoff (built from the
doctor's specialty and name), returns it as the reply, and makes no oracle
call — the run succeeds for every environment, `deadEnv` included. -/
theorem pending_affirm_transitions_to_doctorActive
    (c : Conversation) (pd : Doctor) (u q : String) (env : Env)
    (hpd : c.pendingDoctor = some pd)
    (hu : u ≠ "") (hq : q ≠ "")
    (haff : affirmTokens.any (fun w => includesJS (toLowerCaseJS q) w) = true) :
    ∃ out, postMessage c u q env = Except.ok out ∧
      out.convo.mode = Mode.doctorActive ∧
      out.convo.type = "doctor" ∧
      out.convo.doctor = some pd ∧
      out.convo.pendingDoctor = none ∧
      out.answer = handoffNotify pd ∧
      out.convo.messages = c.messages ++ [⟨"user", q⟩, ⟨"assistant", handoffNotify pd⟩] ∧
      out.calls = [] := by
  refine ⟨⟨{ c with
              type := "doctor", doctor := some pd, pendingDoctor := none,
              messages := c.messages ++ [⟨"user", q⟩, ⟨"assistant", handoffNotify pd⟩] },
            handoffNotify pd, [], []⟩, ?_, ?_, rfl, rfl, rfl, rfl, rfl, rfl⟩
  · simp [postMessage, pushMsg, hpd, hu, hq, haff]
  · simp [Conversation.mode]

/-- Witness for C1: the pending conversation accepts with `"có"` even against
the dead environment. -/
theorem pending_affirm_transitions_to_doctorActive_witness :
    ∃ out, postMessage pendConvo "u1" "có" deadEnv = Except.ok out ∧
      out.convo.mode = Mode.doctorActive ∧
      out.convo.type = "doctor" ∧
      out.convo.doctor = some docDerm ∧
      out.convo.pendingDoctor = none ∧
      out.answer = handoffNotify docDerm ∧
      out.convo.messages =
        pendConvo.messages ++ [⟨"user", "có"⟩, ⟨"assistant", handoffNotify docDerm⟩] ∧
      out.calls = [] :=
  pending_affirm_transitions_to_doctorActive pendConvo docDerm "u1" "có" deadEnv rfl
    (by decide) (by decide) (by decide)

/-- C2: in `doctorHandoffPending` mode, a message whose lower-cased text
contains no affirmative token but contains a negative token from
`{"không","no","từ chối"}` clears `pendingDoctor`, leaves the conversation
in `generic` mode (`type` is untouched and was not `"doctor"`), appends
exactly one assistant message declining the handoff, returns it as the
reply, and makes no oracle call. -/
theorem pending_negative_returns_to_generic
    (c : Conversation) (pd : Doctor) (u q : String) (env : Env)
    (hpd : c.pendingDoctor = some pd) (htype : c.type ≠ "doctor")
    (hu : u ≠ "") (hq : q ≠ "")
    (hnaff : affirmTokens.any (fun w => includesJS (toLowerCaseJS q) w) = false)
    (hneg : negTokens.any (fun w => includesJS (toLowerCaseJS q) w) = true) :
    ∃ out, postMessage c u q env = Except.ok out ∧
      out.convo.mode = Mode.generic ∧
      out.convo.type = c.type ∧
      out.convo.doctor = c.doctor ∧
      out.convo.pendingDoctor = none ∧
      out.answer = denyNotify ∧
      out.convo.messages = c.messages ++ [⟨"user", q⟩, ⟨"assistant", denyNotify⟩] ∧
      out.calls = [] := by
  refine ⟨⟨{ c with
              pendingDoctor := none,
              messages := c.messages ++ [⟨"user", q⟩, ⟨"assistant", denyNotify⟩] },
            denyNotify, [], []⟩, ?_, ?_, rfl, rfl, rfl, rfl, rfl, rfl⟩
  · simp [postMessage, pushMsg, hpd, hu, hq, hnaff, hneg]
  · simp [Conversation.mode, htype]

/-- Witness for C2: the pending conversation declines with `"không"` against
the dead environment. -/
theorem pending_negative_returns_to_generic_witness :
    ∃ out, postMessage pendConvo "u1" "không" deadEnv = Except.ok out ∧
      out.convo.mode = Mode.generic ∧
      out.convo.type = pendConvo.type ∧
      out.convo.doctor = pendConvo.doctor ∧
      out.convo.pendingDoctor = none ∧
      out.answer = denyNotify ∧
      out.convo.messages = pendConvo.messages ++ [⟨"user", "không"⟩, ⟨"assistant", denyNotify⟩] ∧
      out.calls = [] :=
  pending_negative_returns_to_generic pendConvo docDerm "u1" "không" deadEnv rfl
    (by decide) (by decide) (by decide) (by decide) (by decide)

/-- Counterexample for C3: the conversation is pending on the dermatologist
`docDerm` and receives `"tim"`, which contains neither an affirmative nor a
negative token; against `envTim` the fallthrough generic branch classifies
intent as yes, matches cardiology, finds `docCard` — and overwrites
`pendingDoctor` with it, so the pending doctor is **not** left unchanged. -/
theorem pending_ambiguous_counterexample :
    affirmTokens.any (fun w => includesJS (toLowerCaseJS "tim") w) = false ∧
    negTokens.any (fun w => includesJS (toLowerCaseJS "tim") w) = false ∧
    pendConvo.pendingDoctor = some docDerm ∧
    (postMessage pendConvo "u1" "tim" envTim).map (fun o => o.convo.pendingDoctor) =
      Except.ok (some docCard) ∧
    docCard ≠ docDerm := by
  exact ⟨by decide, by decide, rfl, rfl, by decide⟩

/-- C3 as amended: in `doctorHandoffPending` mode, a message containing
neither token leaves the conversation in `doctorHandoffPending` mode with
`type` untouched and produces a generic-branch reply, and the pending offer
remains outstanding — but not necessarily with the same doctor: the
pending doctor is unchanged unless the intent classifier answers yes and
the directory returns a doctor for the newly matched specialty, in which
case `pendingDoctor` is replaced by that doctor. -/
theorem pending_ambiguous_keeps_offer_outstanding
    (c : Conversation) (pd : Doctor) (u q : String) (env : Env) (out : Outcome)
    (hpd : c.pendingDoctor = some pd) (_htype : c.type ≠ "doctor")
    (hu : u ≠ "") (hq : q ≠ "")
    (hnaff : affirmTokens.any (fun w => includesJS (toLowerCaseJS q) w) = false)
    (hnneg : negTokens.any (fun w => includesJS (toLowerCaseJS q) w) = false)
    (h : postMessage c u q env = Except.ok out) :
    out.convo.mode = Mode.doctorHandoffPending ∧
    out.convo.type = c.type ∧
    out.convo.messages = c.messages ++ [⟨"user", q⟩, ⟨"assistant", out.answer⟩] ∧
    (out.convo.pendingDoctor = some pd ∨
      ∃ d, env.findDoctor (matchSpecialtyChat (toLowerCaseJS q)) = some d ∧
        out.convo.pendingDoctor = some d) := by
  have h' : ordinaryTurn (pushMsg c "user" q) (toLowerCaseJS q) env = Except.ok out := by
    simpa [postMessage, pushMsg, hpd, hu, hq, hnaff, hnneg] using h
  obtain ⟨_, htypeEq, _, hmsgs, _, hpend⟩ := ordinaryTurn_ok h'
  have hpend' : out.convo.pendingDoctor = some pd ∨
      ∃ d, env.findDoctor (matchSpecialtyChat (toLowerCaseJS q)) = some d ∧
        out.convo.pendingDoctor = some d := by
    rcases hpend with hp | ⟨_, d, hd, hp⟩
    · exact Or.inl (by simpa [pushMsg, hpd] using hp)
    · exact Or.inr ⟨d, hd, hp⟩
  refine ⟨?_, by simpa [pushMsg] using htypeEq, by simpa [pushMsg] using hmsgs, hpend'⟩
  have hsome : out.convo.pendingDoctor.isSome = true := by
    rcases hpend' with hp | ⟨d, _, hp⟩ <;> simp [hp]
  simp [Conversation.mode, hsome]

/-- Concrete successful outcome of the ambiguous-fallthrough turn used by the
C3 witness: `pendConvo` receiving `"tim"` against `envTim`. -/
def outAmbig : Outcome :=
  ⟨{ userId := "u1", type := "ai", doctor := none, pendingDoctor := some docCard,
     messages := [⟨"user", "tim"⟩, ⟨"assistant", confirmMsg docCard⟩] },
   confirmMsg docCard, [.intent], []⟩

/-- Witness for the amended C3 at the concrete fallthrough turn. -/
theorem pending_ambiguous_keeps_offer_outstanding_witness :
    outAmbig.convo.mode = Mode.doctorHandoffPending ∧
    outAmbig.convo.type = pendConvo.type ∧
    outAmbig.convo.messages =
      pendConvo.messages ++ [⟨"user", "tim"⟩, ⟨"assistant", outAmbig.answer⟩] ∧
    (outAmbig.convo.pendingDoctor = some docDerm ∨
      ∃ d, envTim.findDoctor (matchSpecialtyChat (toLowerCaseJS "tim")) = some d ∧
        outAmbig.convo.pendingDoctor = some d) :=
  pending_ambiguous_keeps_offer_outstanding pendConvo docDerm "u1" "tim" envTim outAmbig
    rfl (by decide) (by decide) (by decide) (by decide) (by decide) rfl

/-- Counterexample for C4: the matcher is **not** applied with the same rule
order in every place. `"tim da"` contains both `"tim"` and `"da"`, yet the
triage-route matcher (which checks `da`/`mụn` before `tim`/`huyết áp`)
returns Dermatology, not Cardiology. -/
theorem specialty_matcher_order_counterexample :
    includesJS "tim da" "tim" = true ∧ includesJS "tim da" "da" = true ∧
    matchSpecialtyTriage "tim da" = "Da liễu" ∧
    matchSpecialtyTriage "tim da" ≠ "Tim mạch" := by decide

/-- C4 as amended: each specialty matcher is a pure deterministic
first-match-wins rule chain over the lower-cased text, but the rule order
differs by call site — the chat handler checks `tim`/`huyết áp` first, so
text containing `"tim"` (for instance together with `"da"`) yields
`"Tim mạch"` there, while the triage route and the temp-chat handler check
`da`/`mụn` first, so text containing `"da"` (even together with `"tim"`)
yields `"Da liễu"` there; text containing none of the keywords yields
`"Nội tổng quát"` in every place. -/
theorem specialty_matcher_first_match_wins :
    (∀ s, (includesJS s "tim" || includesJS s "huyết áp") = true →
      matchSpecialtyChat s = "Tim mạch") ∧
    (∀ s, (includesJS s "da" || includesJS s "mụn") = true →
      matchSpecialtyTriage s = "Da liễu") ∧
    (∀ s, includesJS s "tim" = false → includesJS s "huyết áp" = false →
      includesJS s "da" = false → includesJS s "mụn" = false →
      includesJS s "tai" = false → includesJS s "mũi" = false →
      includesJS s "họng" = false →
      matchSpecialtyChat s = "Nội tổng quát" ∧ matchSpecialtyTriage s = "Nội tổng quát") := by
  refine ⟨fun s h => by simp [matchSpecialtyChat, h],
    fun s h => by simp [matchSpecialtyTriage, h],
    fun s h1 h2 h3 h4 h5 h6 h7 => ?_⟩
  constructor
  · simp [matchSpecialtyChat, h1, h2, h3, h4, h5, h6, h7]
  · simp [matchSpecialtyTriage, h1, h2, h3, h4, h5, h6, h7]

/-- Witness for the amended C4: `"tim da"` routes to Cardiology in the chat
handler and Dermatology on the triage route; keyword-free text defaults to
General Medicine in both. -/
theorem specialty_matcher_first_match_wins_witness :
    matchSpecialtyChat "tim da" = "Tim mạch" ∧
    matchSpecialtyTriage "tim da" = "Da liễu" ∧
    matchSpecialtyChat "xin chào" = "Nội tổng quát" ∧
    matchSpecialtyTriage "xin chào" = "Nội tổng quát" :=
  ⟨specialty_matcher_first_match_wins.1 "tim da" (by decide),
   specialty_matcher_first_match_wins.2.1 "tim da" (by decide),
   (specialty_matcher_first_match_wins.2.2 "xin chào" (by decide) (by decide) (by decide)
     (by decide) (by decide) (by decide) (by decide)).1,
   (specialty_matcher_first_match_wins.2.2 "xin chào" (by decide) (by decide) (by decide)
     (by decide) (by decide) (by decide) (by decide)).2⟩

/-- Counterexample for C5: variant 1's `detectDoctorIntent` has no optional
chaining on `result.response.text()`, so a resolved oracle result carrying
no response text throws (propagated as an error) instead of returning
false. -/
theorem detect_intent_malformed_counterexample :
    detectDoctorIntent (Except.ok none) = Except.error () ∧
    detectDoctorIntent (Except.ok none) ≠ Except.ok false := by
  constructor
  · rfl
  · simp [detectDoctorIntent]

/-- C5 as amended: both variants answer true exactly when the oracle's
trimmed, lower-cased response text contains `"yes"` (so empty content gives
false), but a malformed oracle result with no response text yields false
only in variant 2; in variant 1 it fails and the error propagates. -/
theorem detect_intent_amended :
    (∀ s, detectDoctorIntent (Except.ok (some s)) =
      Except.ok (includesJS (toLowerCaseJS (trimJS s)) "yes")) ∧
    detectDoctorIntent (Except.ok none) = Except.error () ∧
    (∀ q s, q ≠ "" → detectDoctorIntentV2 q (Except.ok (some s)) =
      Except.ok (includesJS (toLowerCaseJS (trimJS s)) "yes")) ∧
    (∀ q, q ≠ "" → detectDoctorIntentV2 q (Except.ok none) = Except.ok false) := by
  refine ⟨fun s => rfl, rfl, fun q s hq => ?_, fun q hq => ?_⟩
  · simp [detectDoctorIntentV2, hq]
  · simp [detectDoctorIntentV2, hq]

/-- Witness for the amended C5 at concrete inputs: a `" Yes. "` response and
a missing response in variant 2. -/
theorem detect_intent_amended_witness :
    detectDoctorIntent (Except.ok (some " Yes. ")) =
      Except.ok (includesJS (toLowerCaseJS (trimJS " Yes. ")) "yes") ∧
    detectDoctorIntentV2 "tim" (Except.ok (some " Yes. ")) =
      Except.ok (includesJS (toLowerCaseJS (trimJS " Yes. ")) "yes") ∧
    detectDoctorIntentV2 "tim" (Except.ok none) = Except.ok false :=
  ⟨detect_intent_amended.1 " Yes. ",
   detect_intent_amended.2.2.1 "tim" " Yes. " (by decide),
   detect_intent_amended.2.2.2 "tim" (by decide)⟩

/-- C6: in generic mode (`type = "ai"`, no pending doctor), when the intent
classifier answers true and the directory has a doctor for the matched
specialty, the turn sets `pendingDoctor` to that doctor (entering
`doctorHandoffPending` mode), appends exactly one assistant message asking
to confirm the handoff, returns it, and performs only the intent oracle
call — the nurse-persona call is never made (the run is independent of
`env.chatResp`). -/
theorem generic_intent_doctor_found_sets_pending
    (c : Conversation) (d : Doctor) (u q : String) (env : Env)
    (hpd : c.pendingDoctor = none) (htype : c.type = "ai")
    (hu : u ≠ "") (hq : q ≠ "")
    (hint : detectDoctorIntent env.intentResp = Except.ok true)
    (hfind : env.findDoctor (matchSpecialtyChat (toLowerCaseJS q)) = some d) :
    ∃ out, postMessage c u q env = Except.ok out ∧
      out.convo.mode = Mode.doctorHandoffPending ∧
      out.convo.pendingDoctor = some d ∧
      out.convo.type = c.type ∧
      out.convo.doctor = c.doctor ∧
      out.answer = confirmMsg d ∧
      out.convo.messages = c.messages ++ [⟨"user", q⟩, ⟨"assistant", confirmMsg d⟩] ∧
      out.calls = [.intent] := by
  refine ⟨⟨{ c with
              pendingDoctor := some d,
              messages := c.messages ++ [⟨"user", q⟩, ⟨"assistant", confirmMsg d⟩] },
            confirmMsg d, [.intent], []⟩, ?_, ?_, rfl, rfl, rfl, rfl, rfl, rfl⟩
  · simp [postMessage, ordinaryTurn, genericBranch, pushMsg, hpd, htype, hu, hq, hint, hfind]
  · simp [Conversation.mode]

/-- Environment for the C6 witness: intent oracle says yes, the chat oracle
would fail (proving the nurse call is not made), and the directory holds
one cardiologist. -/
def envFindOnly : Env :=
  ⟨.ok (some "yes"), .error (), fun s => if s = "Tim mạch" then some docCard else none⟩

/-- Witness for C6 at a fresh conversation receiving `"tim"` against
`envFindOnly`, whose chat oracle would fail if it were called. -/
theorem generic_intent_doctor_found_sets_pending_witness :
    ∃ out, postMessage (newConversation "u1") "u1" "tim" envFindOnly = Except.ok out ∧
      out.convo.mode = Mode.doctorHandoffPending ∧
      out.convo.pendingDoctor = some docCard ∧
      out.convo.type = (newConversation "u1").type ∧
      out.convo.doctor = (newConversation "u1").doctor ∧
      out.answer = confirmMsg docCard ∧
      out.convo.messages =
        (newConversation "u1").messages ++ [⟨"user", "tim"⟩, ⟨"assistant", confirmMsg docCard⟩] ∧
      out.calls = [.intent] :=
  generic_intent_doctor_found_sets_pending (newConversation "u1") docCard "u1" "tim" envFindOnly
    rfl rfl (by decide) (by decide) rfl rfl

/-- Counterexample for C7: in the variant-1 chat handler's generic branch the
intent classifier answers true (and a doctor is even found), yet the run
writes no Triage record at all — the handler has no `Triage.save`. -/
theorem chat_triage_missing_counterexample :
    detectDoctorIntent envTim.intentResp = Except.ok true ∧
    (postMessage (newConversation "u1") "u1" "tim" envTim).map (fun o => o.triageWrites) =
      Except.ok [] :=
  ⟨rfl, rfl⟩

/-- C7 as amended: only the variant-2 temp-chat handler writes the Triage
record — there, whenever the intent classifier answers true, exactly one
record with the matched specialty is written, regardless of whether a
doctor is found; the variant-1 chat handler never writes a Triage record
on any branch. -/
theorem triage_write_amended :
    (∀ c u q env out, postMessage c u q env = Except.ok out → out.triageWrites = []) ∧
    (∀ tc u q env out b, postTempMessage tc u q env = Except.ok out →
      detectDoctorIntentV2 q env.intentResp = Except.ok b →
      out.triageWrites =
        if b then [⟨u, q, matchSpecialtyTriage (toLowerCaseJS q)⟩] else []) := by
  constructor
  · intro c u q env out h
    simp only [postMessage] at h
    split at h
    · simp at h
    · split at h
      · split at h
        · cases h; rfl
        · split at h
          · cases h; rfl
          · exact (ordinaryTurn_ok h).2.2.2.2.1
      · exact (ordinaryTurn_ok h).2.2.2.2.1
  · intro tc u q env out b h hb
    simp only [postTempMessage] at h
    split at h
    · simp at h
    · split at h
      · simp at h
      · rename_i w heq
        split at h
        · simp at h
        · cases h
          rw [heq] at hb
          injection hb with hw
          subst hw
          rfl

/-- Concrete chat outcome for the C7 witness (variant 1, intent yes). -/
def outChatTriage : Outcome :=
  ⟨{ userId := "u1", type := "ai", doctor := none, pendingDoctor := some docCard,
     messages := [⟨"user", "tim"⟩, ⟨"assistant", confirmMsg docCard⟩] },
   confirmMsg docCard, [.intent], []⟩

/-- Concrete temp-chat outcome for the C7 witness (variant 2, intent yes). -/
def outTempTriage : TempOutcome :=
  ⟨{ userId := "u1", messages := [⟨"user", "tim"⟩, ⟨"assistant", "Chào bạn"⟩] },
   "Chào bạn", [.intent, .nurse], [⟨"u1", "tim", "Tim mạch"⟩], some docCard⟩

/-- Witness for the amended C7: the same turn against `envTim` writes no
Triage record through the variant-1 chat handler and exactly one through
the variant-2 temp-chat handler. -/
theorem triage_write_amended_witness :
    outChatTriage.triageWrites = [] ∧
    outTempTriage.triageWrites =
      (if true then [⟨"u1", "tim", matchSpecialtyTriage (toLowerCaseJS "tim")⟩] else []) :=
  ⟨triage_write_amended.1 (newConversation "u1") "u1" "tim" envTim outChatTriage rfl,
   triage_write_amended.2 { userId := "u1" } "u1" "tim" envTim outTempTriage true rfl rfl⟩

/-- C8: every successful chat turn — in both variants, on every branch, for
every classifier and directory outcome — appends exactly one user message
(carrying the incoming text) and exactly one assistant message (carrying
the returned reply) to the transcript, in that order, and nothing else. -/
theorem postMessage_appends_one_user_one_assistant :
    (∀ c u q env out, postMessage c u q env = Except.ok out →
      out.convo.messages = c.messages ++ [⟨"user", q⟩, ⟨"assistant", out.answer⟩]) ∧
    (∀ tc u q env out, postTempMessage tc u q env = Except.ok out →
      out.convo.messages = tc.messages ++ [⟨"user", q⟩, ⟨"assistant", out.answer⟩]) := by
  constructor
  · intro c u q env out h
    simp only [postMessage] at h
    split at h
    · simp at h
    · split at h
      · split at h
        · cases h; simp [pushMsg]
        · split at h
          · cases h; simp [pushMsg]
          · have := (ordinaryTurn_ok h).2.2.2.1
            simpa [pushMsg] using this
      · have := (ordinaryTurn_ok h).2.2.2.1
        simpa [pushMsg] using this
  · intro tc u q env out h
    simp only [postTempMessage] at h
    split at h
    · simp at h
    · split at h
      · simp at h
      · split at h
        · simp at h
        · cases h
          simp [pushTempMsg]

/-- Concrete chat outcome for the C8 witness (deny branch). -/
def outDenyW : Outcome :=
  ⟨{ userId := "u1", type := "ai", doctor := none, pendingDoctor := none,
     messages := [⟨"user", "không"⟩, ⟨"assistant", denyNotify⟩] },
   denyNotify, [], []⟩

/-- Environment for the C8 temp-chat witness: intent oracle says no. -/
def envNoIntent : Env := ⟨.ok (some "no"), .ok (some "Chào"), fun _ => none⟩

/-- Concrete temp-chat outcome for the C8 witness. -/
def outTempW : TempOutcome :=
  ⟨{ userId := "u1", messages := [⟨"user", "xin chào"⟩, ⟨"assistant", "Chào"⟩] },
   "Chào", [.intent, .nurse], [], none⟩

/-- Witness for C8 on both variants at concrete turns. -/
theorem postMessage_appends_one_user_one_assistant_witness :
    outDenyW.convo.messages =
      pendConvo.messages ++ [⟨"user", "không"⟩, ⟨"assistant", outDenyW.answer⟩] ∧
    outTempW.convo.messages =
      ({ userId := "u1" } : TempConversation).messages ++
        [⟨"user", "xin chào"⟩, ⟨"assistant", outTempW.answer⟩] :=
  ⟨postMessage_appends_one_user_one_assistant.1 pendConvo "u1" "không" deadEnv outDenyW rfl,
   postMessage_appends_one_user_one_assistant.2 { userId := "u1" } "u1" "xin chào" envNoIntent
     outTempW rfl⟩

/-- C9: the data invariant — the assigned doctor is present iff the document
is in doctor mode (`type == "doctor"`), and a pending doctor can only be
present outside doctor mode — holds for a freshly created conversation and
is preserved by every successful chat turn on every branch. -/
theorem conversation_invariant_preserved :
    (∀ u, convoInvariant (newConversation u)) ∧
    (∀ c u q env out, convoInvariant c → postMessage c u q env = Except.ok out →
      convoInvariant out.convo) := by
  constructor
  · intro u
    simp [convoInvariant, newConversation]
  · intro c u q env out hinv h
    simp only [postMessage] at h
    split at h
    · simp at h
    · split at h
      · split at h
        · cases h
          constructor
          · simp [pushMsg]
          · simp [pushMsg]
        · split at h
          · cases h
            refine ⟨?_, ?_⟩
            · simpa [pushMsg] using hinv.1
            · simp [pushMsg]
          · obtain ⟨_, htype, hdoc, _, _, hpend⟩ := ordinaryTurn_ok h
            refine ⟨?_, ?_⟩
            · rw [htype, hdoc]
              simpa [pushMsg] using hinv.1
            · rcases hpend with hp | ⟨hnd, d, _, hp⟩
              · intro hs
                rw [hp] at hs
                rw [htype]
                simp only [pushMsg] at hs ⊢
                exact hinv.2 hs
              · intro _
                rw [htype]
                simp only [pushMsg]
                intro hcontra
                exact hnd ⟨by simpa [pushMsg] using hcontra,
                  by simp [pushMsg, hinv.1.mpr (by simpa [pushMsg] using hcontra)]⟩
      · obtain ⟨_, htype, hdoc, _, _, hpend⟩ := ordinaryTurn_ok h
        refine ⟨?_, ?_⟩
        · rw [htype, hdoc]
          simpa [pushMsg] using hinv.1
        · rcases hpend with hp | ⟨hnd, d, _, hp⟩
          · intro hs
            rw [hp] at hs
            rw [htype]
            simp only [pushMsg] at hs ⊢
            exact hinv.2 hs
          · intro _
            rw [htype]
            simp only [pushMsg]
            intro hcontra
            exact hnd ⟨by simpa [pushMsg] using hcontra,
              by simp [pushMsg, hinv.1.mpr (by simpa [pushMsg] using hcontra)]⟩

/-- Concrete accept outcome for the C9 witness. -/
def outAcceptW : Outcome :=
  ⟨{ userId := "u1", type := "doctor", doctor := some docDerm, pendingDoctor := none,
     messages := [⟨"user", "có"⟩, ⟨"assistant", handoffNotify docDerm⟩] },
   handoffNotify docDerm, [], []⟩

/-- Witness for C9: the fresh conversation satisfies the invariant, and so
does the result of a concrete accept turn from a pending conversation. -/
theorem conversation_invariant_preserved_witness :
    convoInvariant (newConversation "u1") ∧ convoInvariant outAcceptW.convo :=
  ⟨conversation_invariant_preserved.1 "u1",
   conversation_invariant_preserved.2 pendConvo "u1" "có" deadEnv outAcceptW
     ⟨by decide, by decide⟩ rfl⟩

/-- C10: in the doctor-persona branch and in the generic nurse branch, an
oracle call that resolves but carries no response text does not abort the
turn: the run succeeds and the assistant message appended and returned is
the fixed placeholder `"(Không có phản hồi)"`. -/
theorem empty_oracle_response_placeholder :
    (∀ c d u q env, c.pendingDoctor = none → c.type = "doctor" → c.doctor = some d →
      u ≠ "" → q ≠ "" → env.chatResp = Except.ok none →
      postMessage c u q env =
        Except.ok ⟨pushMsg (pushMsg c "user" q) "assistant" noReply, noReply,
          [.doctorPersona], []⟩) ∧
    (∀ c u q env, c.pendingDoctor = none → c.type = "ai" →
      u ≠ "" → q ≠ "" →
      detectDoctorIntent env.intentResp = Except.ok false → env.chatResp = Except.ok none →
      postMessage c u q env =
        Except.ok ⟨pushMsg (pushMsg c "user" q) "assistant" noReply, noReply,
          [.intent, .nurse], []⟩) := by
  constructor
  · intro c d u q env hpd ht hd hu hq hresp
    simp [postMessage, ordinaryTurn, doctorBranch, pushMsg, hpd, ht, hd, hu, hq, hresp]
  · intro c u q env hpd ht hu hq hint hresp
    simp [postMessage, ordinaryTurn, genericBranch, nurseReply, pushMsg,
      hpd, ht, hu, hq, hint, hresp]

/-- Environment for the C10 witness: a resolved oracle result with no text
on the chat prompt, and an intent answer of `"no"`. -/
def envNoText : Env := ⟨.ok (some "no"), .ok none, fun _ => none⟩

/-- An active doctor conversation for the C10 witness. -/
def activeConvo : Conversation :=
  { userId := "u1", type := "doctor", doctor := some docCard, pendingDoctor := none }

/-- Witness for C10: both branches produce the placeholder reply against
`envNoText`. -/
theorem empty_oracle_response_placeholder_witness :
    postMessage activeConvo "u1" "xin chào" envNoText =
      Except.ok ⟨pushMsg (pushMsg activeConvo "user" "xin chào") "assistant" noReply, noReply,
        [.doctorPersona], []⟩ ∧
    postMessage (newConversation "u1") "u1" "xin chào" envNoText =
      Except.ok ⟨pushMsg (pushMsg (newConversation "u1") "user" "xin chào") "assistant" noReply,
        noReply, [.intent, .nurse], []⟩ :=
  ⟨empty_oracle_response_placeholder.1 activeConvo docCard "u1" "xin chào" envNoText
     rfl rfl rfl (by decide) (by decide) rfl,
   empty_oracle_response_placeholder.2 (newConversation "u1") "u1" "xin chào" envNoText
     rfl rfl (by decide) (by decide) rfl rfl⟩

end Chat
